/-
  Verification of the Morpheus UI event-derived state engine.

  Shallow embedding of the core components described in the repository:
  - the Zustand trading-state store (src/app/store/useAppStore.ts):
    processOrderEvent, processExecutionEvent, updateDecisionChain;
  - the Decision Support panel's Confirmation Gate (getExecutionState,
    signal-age classification and countdown);
  - the WebSocket client's reconnect scheduling (MorpheusWSClient);
  - the REST API client's command bookkeeping (MorpheusAPIClient).

  JavaScript `number` values that may be absent (undefined / NaN) are
  modelled as `Option Int` (named `JSNum`); JavaScript truthiness
  coalescing `a || b` (where 0, NaN, undefined and "" are falsy) is
  modelled by `jsOr` / `jsOrStr`.  Record objects keyed by string are
  modelled as association lists with first-match lookup.
-/
import Mathlib

/-- A JavaScript number that may be `undefined` (or `NaN`): both behave
as "no usable value" in the store code paths we model. -/
abbrev JSNum := Option Int

/-- JavaScript `a || b` for numbers: `0`, `NaN` and `undefined` are falsy. -/
def jsOr (a b : JSNum) : JSNum :=
  match a with
  | some v => if v = 0 then b else some v
  | none => b

/-- JavaScript `a || b` for optional strings: `""` and `undefined` are falsy. -/
def jsOrStr (a b : Option String) : Option String :=
  match a with
  | some s => if s = ("") then b else some s
  | none => b

/-- JavaScript `a + b` where either side may be `undefined`/`NaN`
(the result is then `NaN`, i.e. `none`). -/
def jsAdd (a b : JSNum) : JSNum :=
  match a, b with
  | some x, some y => some (x + y)
  | _, _ => none

/-- JavaScript `a >= b`: comparisons against `NaN`/`undefined` are `false`. -/
def jsGe (a b : JSNum) : Bool :=
  match a, b with
  | some x, some y => decide (y ≤ x)
  | _, _ => false

/-- First-match lookup in an association list (JS object property read). -/
def lookupA {α : Type} (m : List (String × α)) (k : String) : Option α :=
  match m with
  | [] => none
  | (k', v) :: t => if k' = k then some v else lookupA t k

/-- Insert-or-replace in an association list (JS spread `{...m, [k]: v}`):
replaces the value at an existing key in place, otherwise appends. -/
def insertA {α : Type} (m : List (String × α)) (k : String) (v : α) : List (String × α) :=
  match m with
  | [] => [(k, v)]
  | (k', v') :: t => if k' = k then (k, v) :: t else (k', v') :: insertA t k v

/-- Key removal from an association list (JS `delete m[k]` / `Map.delete`). -/
def eraseA {α : Type} (m : List (String × α)) (k : String) : List (String × α) :=
  match m with
  | [] => []
  | (k', v) :: t => if k' = k then eraseA t k else (k', v) :: eraseA t k

@[simp]
theorem lookupA_insertA_self {α : Type} (m : List (String × α)) (k : String) (v : α) :
    lookupA (insertA m k v) k = some v := by
  induction m with
  | nil => simp [insertA, lookupA]
  | cons hd t ih =>
    obtain ⟨k', v'⟩ := hd
    by_cases h : k' = k <;> simp [insertA, lookupA, h, ih]

theorem lookupA_insertA_ne {α : Type} (m : List (String × α)) (k k' : String) (v : α)
    (h : k' ≠ k) : lookupA (insertA m k v) k' = lookupA m k' := by
  have h' : ¬ k = k' := fun hh => h hh.symm
  induction m with
  | nil => simp [insertA, lookupA, h']
  | cons hd t ih =>
    obtain ⟨k₀, v₀⟩ := hd
    by_cases h₀ : k₀ = k
    · subst h₀
      simp [insertA, lookupA, h']
    · by_cases h₁ : k₀ = k'
      · simp [insertA, lookupA, h₀, h₁, h]
      · simp [insertA, lookupA, h₀, h₁, ih]

@[simp]
theorem lookupA_eraseA_self {α : Type} (m : List (String × α)) (k : String) :
    lookupA (eraseA m k) k = none := by
  induction m with
  | nil => simp [eraseA, lookupA]
  | cons hd t ih =>
    obtain ⟨k', v⟩ := hd
    by_cases h : k' = k <;> simp [eraseA, lookupA, h, ih]

/-! ## Data model (src/app/morpheus/eventTypes.ts and useAppStore.ts) -/

/-- Event payload: the dynamically-typed `payload` key-value map, restricted
to the fields read by the order/execution processors.  Absent fields are
`none`. -/
structure Payload where
  client_order_id : Option String := none
  command_id : Option String := none
  symbol : Option String := none
  side : Option String := none
  quantity : JSNum := none
  filled_quantity : JSNum := none
  order_quantity : JSNum := none
  order_type : Option String := none
  limit_price : JSNum := none
  stop_price : JSNum := none
  exec_id : Option String := none
  fill_price : JSNum := none
  price : JSNum := none
  deriving Repr, DecidableEq

/-- A Morpheus event (the `MorpheusEvent` interface).  `event_type` is kept
as a string, as in the source, so that unrecognized types flow to the
`default` branches. -/
structure MorpheusEvent where
  event_id : String
  event_type : String
  timestamp : String
  payload : Payload := {}
  symbol : Option String := none
  deriving Repr, DecidableEq

/-- An event-derived order record (the `Order` interface).  Every field is
optional because JavaScript object spread of a missing record
(`{...existingOrder, ...}` with `existingOrder === undefined`) produces
objects whose undeclared fields are `undefined`. -/
structure Order where
  client_order_id : Option String := none
  symbol : Option String := none
  side : Option String := none
  quantity : JSNum := none
  filled_quantity : JSNum := none
  order_type : Option String := none
  limit_price : JSNum := none
  stop_price : JSNum := none
  status : Option String := none
  timestamp : Option String := none
  command_id : Option String := none
  deriving Repr, DecidableEq

/-- An event-derived position record (the `Position` interface). -/
structure Position where
  symbol : String
  quantity : JSNum := none
  avg_price : JSNum := none
  current_price : JSNum := none
  market_value : JSNum := none
  unrealized_pnl : JSNum := none
  unrealized_pnl_pct : JSNum := none
  last_updated : String := ("")
  deriving Repr, DecidableEq

/-- An event-derived execution record (the `Execution` interface). -/
structure Execution where
  exec_id : String
  client_order_id : Option String := none
  symbol : Option String := none
  side : Option String := none
  quantity : JSNum := none
  price : JSNum := none
  timestamp : String := ("")
  deriving Repr, DecidableEq

/-- A tracked pending command in the store (the `PendingCommand` interface). -/
structure PendingCommand where
  command_id : String
  command_type : String
  timestamp : Int
  symbol : Option String := none
  deriving Repr, DecidableEq

/-- Decision chain stage: latest regime detection. -/
structure RegimeStage where
  regime : String
  confidence : Int
  timestamp : String
  deriving Repr, DecidableEq

/-- Decision chain stage: latest signal candidate. -/
structure SignalStage where
  direction : String
  strategy_name : String
  entry_price : JSNum := none
  stop_price : JSNum := none
  target_price : JSNum := none
  timestamp : String
  deriving Repr, DecidableEq

/-- Decision chain stage: latest score. -/
structure ScoreStage where
  confidence : Int
  rationale : String
  model_name : String
  timestamp : String
  deriving Repr, DecidableEq

/-- Decision chain stage: latest gate decision. -/
structure GateStage where
  decision : String
  reasons : List String := []
  timestamp : String
  deriving Repr, DecidableEq

/-- Decision chain stage: latest risk decision. -/
structure RiskStage where
  decision : String
  veto_reasons : List String := []
  timestamp : String
  deriving Repr, DecidableEq

/-- Decision chain stage: latest execution-guard check. -/
structure GuardStage where
  decision : String
  block_reasons : List String := []
  spread_pct : Int := 0
  timestamp : String
  deriving Repr, DecidableEq

/-- Decision chain stage: latest order status. -/
structure OrderStage where
  status : String
  client_order_id : String
  filled_quantity : Int := 0
  timestamp : String
  deriving Repr, DecidableEq

/-- Per-symbol decision chain snapshot (the `DecisionChain` interface):
independently overwritten optional stages. -/
structure DecisionChain where
  symbol : String := ("")
  regime : Option RegimeStage := none
  signal : Option SignalStage := none
  score : Option ScoreStage := none
  gate : Option GateStage := none
  risk : Option RiskStage := none
  guard : Option GuardStage := none
  order : Option OrderStage := none
  deriving Repr, DecidableEq

/-- A `Partial<DecisionChain>` argument to `updateDecisionChain`: an outer
`none` means the field is absent from the partial object (and so is not
overwritten by the spread). -/
structure PartialDecisionChain where
  symbol : Option String := none
  regime : Option (Option RegimeStage) := none
  signal : Option (Option SignalStage) := none
  score : Option (Option ScoreStage) := none
  gate : Option (Option GateStage) := none
  risk : Option (Option RiskStage) := none
  guard : Option (Option GuardStage) := none
  order : Option (Option OrderStage) := none
  deriving Repr, DecidableEq

/-- Trading-mode flags (the `TradingState` interface). -/
structure TradingState where
  mode : String := ("PAPER")
  liveArmed : Bool := false
  killSwitchActive : Bool := false
  deriving Repr, DecidableEq

/-- The event-derived portion of the Zustand store state (`AppState`),
restricted to the fields touched by the event processors and the
decision-chain aggregator. -/
structure AppState where
  decisionChains : List (String × DecisionChain) := []
  trading : TradingState := {}
  orders : List (String × Order) := []
  positions : List (String × Position) := []
  executions : List Execution := []
  pendingCommands : List (String × PendingCommand) := []
  deriving Repr, DecidableEq

/-! ## Trading State Store (useAppStore.ts) -/

/-- `processOrderEvent` from the store: folds an order-lifecycle event into
the orders map (and resolves a pending command when the payload carries a
`command_id`).  Events without a truthy `client_order_id` are dropped.
Mirrors the `switch (event.event_type)` in src/app/store/useAppStore.ts. -/
def processOrderEvent (state : AppState) (event : MorpheusEvent) : AppState :=
  let payload := event.payload
  let commandId := payload.command_id
  match payload.client_order_id with
  | none => state
  | some clientOrderId =>
    if clientOrderId = ("") then state
    else
      let existingOrder := lookupA state.orders clientOrderId
      let newOrder? : Option Order :=
        if event.event_type = ("ORDER_SUBMITTED") then
          some { client_order_id := some clientOrderId,
                 symbol := jsOrStr event.symbol payload.symbol,
                 side := payload.side,
                 quantity := payload.quantity,
                 filled_quantity := some 0,
                 order_type := payload.order_type,
                 limit_price := payload.limit_price,
                 stop_price := payload.stop_price,
                 status := some ("submitted"),
                 timestamp := some event.timestamp,
                 command_id := commandId }
        else if event.event_type = ("ORDER_CONFIRMED") then
          some { existingOrder.getD {} with
                 status := some ("confirmed"),
                 timestamp := some event.timestamp }
        else if event.event_type = ("ORDER_FILL_RECEIVED") then
          let fillQty := jsOr payload.filled_quantity payload.quantity
          let totalFilled := jsAdd (jsOr (existingOrder.bind Order.filled_quantity) (some 0)) fillQty
          let orderQty := jsOr (existingOrder.bind Order.quantity) payload.order_quantity
          some { existingOrder.getD {} with
                 filled_quantity := totalFilled,
                 status := some (if jsGe totalFilled orderQty then ("filled") else ("partial")),
                 timestamp := some event.timestamp }
        else if event.event_type = ("ORDER_CANCELLED") then
          some { existingOrder.getD {} with
                 status := some ("cancelled"),
                 timestamp := some event.timestamp }
        else if event.event_type = ("ORDER_REJECTED") then
          some { existingOrder.getD {} with
                 client_order_id := some clientOrderId,
                 symbol := some ((jsOrStr event.symbol (existingOrder.bind Order.symbol)).getD ("")),
                 side := jsOrStr (existingOrder.bind Order.side) payload.side,
                 quantity := jsOr (existingOrder.bind Order.quantity) payload.quantity,
                 filled_quantity := some 0,
                 order_type := jsOrStr (jsOrStr (existingOrder.bind Order.order_type) payload.order_type)
                                 (some ("market")),
                 status := some ("rejected"),
                 timestamp := some event.timestamp,
                 command_id := commandId }
        else none
      match newOrder? with
      | none => state
      | some newOrder =>
        let newPendingCommands :=
          match commandId with
          | some c =>
            if c ≠ ("") ∧ (lookupA state.pendingCommands c).isSome then
              eraseA state.pendingCommands c
            else state.pendingCommands
          | none => state.pendingCommands
        { state with
          orders := insertA state.orders clientOrderId newOrder,
          pendingCommands := newPendingCommands }

/-- The execution id used for deduplication:
`payload.exec_id as string || event.event_id`. -/
def execIdOf (event : MorpheusEvent) : String :=
  match event.payload.exec_id with
  | some s => if s = ("") then event.event_id else s
  | none => event.event_id

/-- The execution record derived from a fill-class event. -/
def executionOf (event : MorpheusEvent) : Execution :=
  { exec_id := execIdOf event,
    client_order_id := event.payload.client_order_id,
    symbol := jsOrStr event.symbol event.payload.symbol,
    side := event.payload.side,
    quantity := jsOr event.payload.filled_quantity event.payload.quantity,
    price := jsOr event.payload.fill_price event.payload.price,
    timestamp := event.timestamp }

/-- `processExecutionEvent` from the store: appends one deduplicated
execution record per fill-class event, newest first, capped at 1000. -/
def processExecutionEvent (state : AppState) (event : MorpheusEvent) : AppState :=
  if event.event_type ≠ ("ORDER_FILL_RECEIVED") then state
  else if state.executions.any (fun e => e.exec_id == execIdOf event) then state
  else { state with executions := (executionOf event :: state.executions).take 1000 }

/-- `updateDecisionChain` from the store:
`{...state.decisionChains[symbol], ...chain, symbol}` — merge the partial
update over the existing chain (or an empty object) and force the `symbol`
field to the map key. -/
def mergeDecisionChain (old : DecisionChain) (chain : PartialDecisionChain)
    (symbol : String) : DecisionChain :=
  { symbol := symbol,
    regime := chain.regime.getD old.regime,
    signal := chain.signal.getD old.signal,
    score := chain.score.getD old.score,
    gate := chain.gate.getD old.gate,
    risk := chain.risk.getD old.risk,
    guard := chain.guard.getD old.guard,
    order := chain.order.getD old.order }

def updateDecisionChain (state : AppState) (symbol : String) (chain : PartialDecisionChain) :
    AppState :=
  { state with
    decisionChains := insertA state.decisionChains symbol
      (mergeDecisionChain ((lookupA state.decisionChains symbol).getD {}) chain symbol) }

/-- Fold a list of events into the store through `processOrderEvent`. -/
def applyFills (state : AppState) (events : List MorpheusEvent) : AppState :=
  events.foldl processOrderEvent state

/-! ## Confirmation Gate (DecisionSupportPanel) -/

/-- `CONFIRM_TTL_MS` from DecisionSupportPanel. -/
def CONFIRM_TTL_MS : Int := 1200

/-- `SIGNAL_ARMED_THRESHOLD` from DecisionSupportPanel. -/
def SIGNAL_ARMED_THRESHOLD : Int := 800

/-- `SIGNAL_EXPIRING_THRESHOLD` from DecisionSupportPanel. -/
def SIGNAL_EXPIRING_THRESHOLD : Int := CONFIRM_TTL_MS

/-- One tick of the panel's `updateAge` closure for a present signal:
computes the exposed countdown value and the signal-status classification
from the signal age `now - signalTime`. -/
def updateAge (signalTime now : Int) : Int × String :=
  (if CONFIRM_TTL_MS - (now - signalTime) > 0 then CONFIRM_TTL_MS - (now - signalTime) else 0,
   if now - signalTime < SIGNAL_ARMED_THRESHOLD then ("ARMED")
   else if now - signalTime < SIGNAL_EXPIRING_THRESHOLD then ("EXPIRING")
   else ("STALE"))

/-- The signal-age effect including its guard: with no signal timestamp the
status is NONE and the countdown is null; otherwise `updateAge` runs. -/
def signalTick (signalTime : Option Int) (now : Int) : Option Int × String :=
  match signalTime with
  | none => (none, ("NONE"))
  | some t => (some (updateAge t now).1, (updateAge t now).2)

/-- A block reason chip `{code, message}` from DecisionSupportPanel. -/
structure BlockReason where
  code : String
  message : String
  deriving Repr, DecidableEq

/-- `getExecutionState` from DecisionSupportPanel: evaluates all eight
block conditions in order, collecting every applicable reason, and returns
READY exactly when no reason applies. -/
def getExecutionState (activeSymbol : String) (decisionChain : Option DecisionChain)
    (signalStatus : String) (trading : TradingState) : String × List BlockReason :=
  let reasons : List BlockReason :=
    (if activeSymbol = ("") then [⟨("NO_SYMBOL"), ("No symbol")⟩] else [])
    ++ (if (decisionChain.bind DecisionChain.signal).isNone then
          [⟨("NO_SIGNAL"), ("No signal")⟩] else [])
    ++ (if signalStatus = ("STALE") then [⟨("SIGNAL_STALE"), ("Expired")⟩] else [])
    ++ (if ((decisionChain.bind DecisionChain.gate).map GateStage.decision) = some ("rejected") then
          [⟨("GATE_REJECTED"), ("Gate rejected")⟩] else [])
    ++ (if ((decisionChain.bind DecisionChain.risk).map RiskStage.decision) = some ("vetoed") then
          [⟨("RISK_VETOED"), ("Risk vetoed")⟩] else [])
    ++ (if ((decisionChain.bind DecisionChain.guard).map GuardStage.decision) = some ("block") then
          [⟨("GUARD_BLOCKED"), ("Guard blocked")⟩] else [])
    ++ (if trading.mode = ("LIVE") ∧ trading.liveArmed = false then
          [⟨("NOT_ARMED"), ("Not armed")⟩] else [])
    ++ (if trading.killSwitchActive = true then [⟨("KILL_SWITCH"), ("Kill switch")⟩] else [])
  (if reasons = [] then ("READY") else ("BLOCKED"), reasons)

/-! ## WebSocket client (MorpheusWSClient) -/

/-- `scheduleReconnect` from MorpheusWSClient, as the delay it schedules:
`none` when the attempt budget is exhausted (no timer is set and the
channel stays disconnected), otherwise the exponential-backoff delay. -/
def scheduleReconnectDelay (reconnectInterval maxReconnectAttempts reconnectAttempts : Nat) :
    Option Nat :=
  if reconnectAttempts ≥ maxReconnectAttempts then none
  else some (min (reconnectInterval * 2 ^ reconnectAttempts) 30000)

/-! ## REST API client (MorpheusAPIClient) -/

/-- An entry of the API client's private `pendingCommands` map. -/
structure PendingEntry where
  type : String
  timestamp : Int
  deriving Repr, DecidableEq

/-- `cleanupPendingCommands`: drop entries older than 60 seconds. -/
def cleanupPendingCommands (now : Int) (m : List (String × PendingEntry)) :
    List (String × PendingEntry) :=
  match m with
  | [] => []
  | (id, cmd) :: t =>
    if now - cmd.timestamp > 60000 then cleanupPendingCommands now t
    else (id, cmd) :: cleanupPendingCommands now t

/-- `createCommand`'s effect on the pending map: track the fresh command,
then sweep stale entries. -/
def createCommand (pending : List (String × PendingEntry)) (commandId ctype : String)
    (now : Int) : List (String × PendingEntry) :=
  cleanupPendingCommands now (insertA pending commandId ⟨ctype, now⟩)

/-- The `CommandResult` response shape. -/
structure CommandResult where
  accepted : Bool
  command_id : String
  message : Option String := none
  deriving Repr, DecidableEq

/-- `sendCommand`: creates and tracks the command, performs exactly one
request (the third component counts request attempts), and on failure
removes the pending entry and propagates the error; on success returns the
result restamped with the generated command id. -/
def sendCommand (pending : List (String × PendingEntry)) (commandId ctype : String)
    (now : Int) (outcome : Except String CommandResult) :
    List (String × PendingEntry) × Except String CommandResult × Nat :=
  let p1 := createCommand pending commandId ctype now
  match outcome with
  | Except.ok r => (p1, Except.ok { r with command_id := commandId }, 1)
  | Except.error e => (eraseA p1 commandId, Except.error e, 1)

/-! ## Claim C5: reconnect backoff -/

/-- C5: for every count N of reconnect attempts already made with
N < maxReconnectAttempts, the scheduled delay equals
min(reconnectInterval * 2^N, 30000) ms; once N reaches the maximum,
no further reconnect is scheduled. -/
theorem reconnect_backoff_delay (base maxA N : Nat) :
    (N < maxA → scheduleReconnectDelay base maxA N = some (min (base * 2 ^ N) 30000)) ∧
    (maxA ≤ N → scheduleReconnectDelay base maxA N = none) := by
  constructor
  · intro h
    simp [scheduleReconnectDelay, Nat.not_le_of_lt h]
  · intro h
    simp [scheduleReconnectDelay, h]

/-- Witness for C5 at base=1000, max=10: after 3 attempts the delay is
8000 ms, and at 10 attempts nothing is scheduled. -/
theorem reconnect_backoff_delay_witness :
    scheduleReconnectDelay 1000 10 3 = some 8000 ∧
    scheduleReconnectDelay 1000 10 10 = none := by
  constructor
  · have h := (reconnect_backoff_delay 1000 10 3).1 (by decide)
    simpa using h
  · exact (reconnect_backoff_delay 1000 10 10).2 (by decide)

/-! ## Claim C9: countdown and signal-age classification -/

/-- C9: for a signal of age `now - t`, the exposed countdown equals
max(0, 1200 - age); the classification is ARMED iff age < 800, EXPIRING
iff 800 ≤ age < 1200, STALE iff age ≥ 1200; at age = 1200 exactly the
status is STALE with countdown 0; with no signal the status is NONE. -/
theorem signal_countdown_classification (t now : Int) :
    (signalTick (some t) now).1 = some (max 0 (CONFIRM_TTL_MS - (now - t))) ∧
    ((signalTick (some t) now).2 = ("ARMED") ↔ now - t < 800) ∧
    ((signalTick (some t) now).2 = ("EXPIRING") ↔ 800 ≤ now - t ∧ now - t < 1200) ∧
    ((signalTick (some t) now).2 = ("STALE") ↔ 1200 ≤ now - t) ∧
    (now - t = 1200 → (signalTick (some t) now).2 = ("STALE") ∧
      (signalTick (some t) now).1 = some 0) ∧
    (∀ n : Int, signalTick none n = (none, ("NONE"))) := by
  have c1 : (signalTick (some t) now).1 =
      some (if CONFIRM_TTL_MS - (now - t) > 0 then CONFIRM_TTL_MS - (now - t) else 0) := rfl
  have c2 : (signalTick (some t) now).2 =
      (if now - t < SIGNAL_ARMED_THRESHOLD then ("ARMED")
       else if now - t < SIGNAL_EXPIRING_THRESHOLD then ("EXPIRING")
       else ("STALE")) := rfl
  have hthr : SIGNAL_ARMED_THRESHOLD = 800 ∧ SIGNAL_EXPIRING_THRESHOLD = 1200 ∧
      CONFIRM_TTL_MS = 1200 := by
    refine ⟨rfl, rfl, rfl⟩
  obtain ⟨e1, e2, e3⟩ := hthr
  refine ⟨?_, ?_, ?_, ?_, ?_, fun n => rfl⟩
  · rw [c1, e3]
    have : (if (1200 : Int) - (now - t) > 0 then 1200 - (now - t) else 0) =
        max 0 (1200 - (now - t)) := by
      split_ifs <;> omega
    rw [this]
  · rw [c2, e1, e2]
    by_cases h1 : now - t < 800
    · simp [h1]
    · by_cases h2 : now - t < 1200
      · simp [h1, h2]
      · simp [h1, h2]
  · rw [c2, e1, e2]
    by_cases h1 : now - t < 800
    · simp [h1]
    · by_cases h2 : now - t < 1200
      · simp [h1, h2]
        omega
      · simp [h1, h2]
  · rw [c2, e1, e2]
    by_cases h1 : now - t < 800
    · simp [h1]
      omega
    · by_cases h2 : now - t < 1200
      · simp [h1, h2]
      · simp [h1, h2]
        omega
  · intro h
    rw [c1, c2, e1, e2, e3, h]
    exact ⟨by decide, by decide⟩

/-- Witness for C9 at t=0, now=1200 (age exactly the TTL): status STALE,
countdown 0; and the no-signal case gives NONE. -/
theorem signal_countdown_classification_witness :
    (signalTick (some 0) 1200).2 = ("STALE") ∧
    (signalTick (some 0) 1200).1 = some 0 ∧
    signalTick none 5 = (none, ("NONE")) := by
  have h := signal_countdown_classification 0 1200
  exact ⟨(h.2.2.2.2.1 (by decide)).1, (h.2.2.2.2.1 (by decide)).2, h.2.2.2.2.2 5⟩

/-! ## Claim C10: events without client_order_id are dropped -/

/-- C10: an order-lifecycle event whose payload carries no client_order_id
leaves the entire store state unchanged, whatever its event type
(including ORDER_REJECTED). -/
theorem orderEvent_no_client_order_id (s : AppState) (ev : MorpheusEvent)
    (h : ev.payload.client_order_id = none) : processOrderEvent s ev = s := by
  simp [processOrderEvent, h]

/-- Witness for C10: a concrete ORDER_REJECTED event without a
client_order_id is a no-op on the empty store. -/
theorem orderEvent_no_client_order_id_witness :
    processOrderEvent {}
      { event_id := ("e1"), event_type := ("ORDER_REJECTED"), timestamp := ("t1"),
        payload := { quantity := some 10, side := some ("buy") } } = {} :=
  orderEvent_no_client_order_id {} _ rfl

/-! ## Claim C8: decision-chain stage overwrites are independent -/

/-- C8: updating a symbol's DecisionChain overwrites exactly the stages
present in the partial update — every absent stage is preserved — the
stored chain's symbol always equals its map key (and the key invariant is
preserved for every entry), and other symbols' chains are untouched. -/
theorem decision_chain_frame (s : AppState) (sym : String) (p : PartialDecisionChain) :
    ∃ c, lookupA (updateDecisionChain s sym p).decisionChains sym = some c ∧
      c.symbol = sym ∧
      (p.regime = none → c.regime = ((lookupA s.decisionChains sym).getD {}).regime) ∧
      (p.signal = none → c.signal = ((lookupA s.decisionChains sym).getD {}).signal) ∧
      (p.score = none → c.score = ((lookupA s.decisionChains sym).getD {}).score) ∧
      (p.gate = none → c.gate = ((lookupA s.decisionChains sym).getD {}).gate) ∧
      (p.risk = none → c.risk = ((lookupA s.decisionChains sym).getD {}).risk) ∧
      (p.guard = none → c.guard = ((lookupA s.decisionChains sym).getD {}).guard) ∧
      (p.order = none → c.order = ((lookupA s.decisionChains sym).getD {}).order) ∧
      (∀ sig, p.signal = some sig → c.signal = sig) ∧
      (∀ k, k ≠ sym → lookupA (updateDecisionChain s sym p).decisionChains k =
        lookupA s.decisionChains k) ∧
      ((∀ k c₀, lookupA s.decisionChains k = some c₀ → c₀.symbol = k) →
        ∀ k c₁, lookupA (updateDecisionChain s sym p).decisionChains k = some c₁ →
          c₁.symbol = k) := by
  refine ⟨mergeDecisionChain ((lookupA s.decisionChains sym).getD {}) p sym,
    ?_, rfl, ?_, ?_, ?_, ?_, ?_, ?_, ?_, ?_, ?_, ?_⟩
  · simp [updateDecisionChain]
  · intro h
    simp [mergeDecisionChain, h]
  · intro h
    simp [mergeDecisionChain, h]
  · intro h
    simp [mergeDecisionChain, h]
  · intro h
    simp [mergeDecisionChain, h]
  · intro h
    simp [mergeDecisionChain, h]
  · intro h
    simp [mergeDecisionChain, h]
  · intro h
    simp [mergeDecisionChain, h]
  · intro sig h
    simp [mergeDecisionChain, h]
  · intro k hk
    simp only [updateDecisionChain]
    exact lookupA_insertA_ne _ _ _ _ hk
  · intro hinv k c₁ h₁
    by_cases hk : k = sym
    · subst hk
      simp only [updateDecisionChain, lookupA_insertA_self, Option.some.injEq] at h₁
      rw [← h₁]
      rfl
    · rw [updateDecisionChain] at h₁
      simp only at h₁
      rw [lookupA_insertA_ne _ _ _ _ hk] at h₁
      exact hinv k c₁ h₁

/-- Concrete store for the C8 witness: a decision chain for AAPL with a
gate stage already present. -/
def s8w : AppState :=
  { decisionChains :=
      [(("AAPL"),
        { symbol := ("AAPL"),
          gate := some { decision := ("approved"), timestamp := ("t1") } })] }

/-- Concrete partial update for the C8 witness: a signal-stage overwrite
only. -/
def sig8w : SignalStage :=
  { direction := ("long"), strategy_name := ("orb"), timestamp := ("t2") }

def p8w : PartialDecisionChain :=
  { signal := some (some sig8w) }

/-- Witness for C8: applying a signal-only update to AAPL's chain keeps
the prior gate stage and stores the chain under its own symbol. -/
theorem decision_chain_frame_witness :
    ∃ c, lookupA (updateDecisionChain s8w ("AAPL") p8w).decisionChains ("AAPL") = some c ∧
      c.symbol = ("AAPL") ∧
      c.gate = ((lookupA s8w.decisionChains ("AAPL")).getD {}).gate ∧
      c.signal = some sig8w := by
  obtain ⟨c, h1, h2, _, _, _, hgate, _, _, _, hsig, _, _⟩ :=
    decision_chain_frame s8w ("AAPL") p8w
  exact ⟨c, h1, h2, hgate rfl, hsig _ rfl⟩

/-! ## Claim C7: command-send error handling -/

theorem lookupA_createCommand_self (pending : List (String × PendingEntry))
    (k ty : String) (now : Int) :
    lookupA (createCommand pending k ty now) k = some ⟨ty, now⟩ := by
  unfold createCommand
  induction pending with
  | nil =>
    simp [insertA, cleanupPendingCommands, lookupA]
  | cons hd t ih =>
    obtain ⟨k', v⟩ := hd
    by_cases h : k' = k
    · subst h
      simp [insertA, cleanupPendingCommands, lookupA]
    · simp only [insertA, if_neg h, cleanupPendingCommands]
      split_ifs with hstale
      · exact ih
      · simp [lookupA, h, ih]

/-- C7: a command send performs exactly one request; on failure the
pending entry is removed and the error is propagated to the caller; on
success the returned result carries the generated command id and the
command remains tracked as pending. -/
theorem command_send_error_handling (pending : List (String × PendingEntry))
    (cid ctype : String) (now : Int) (outcome : Except String CommandResult) :
    (sendCommand pending cid ctype now outcome).2.2 = 1 ∧
    (∀ e, outcome = Except.error e →
      (sendCommand pending cid ctype now outcome).2.1 = Except.error e ∧
      lookupA (sendCommand pending cid ctype now outcome).1 cid = none) ∧
    (∀ r, outcome = Except.ok r →
      (sendCommand pending cid ctype now outcome).2.1 =
        Except.ok { r with command_id := cid } ∧
      lookupA (sendCommand pending cid ctype now outcome).1 cid = some ⟨ctype, now⟩) := by
  rcases outcome with e | r
  · refine ⟨rfl, ?_, ?_⟩
    · intro e' he
      injection he with h
      subst h
      exact ⟨rfl, by simp [sendCommand]⟩
    · intro r hr
      exact Except.noConfusion hr
  · refine ⟨rfl, ?_, ?_⟩
    · intro e' he
      exact Except.noConfusion he
    · intro r' hr
      injection hr with h
      subst h
      exact ⟨rfl, by simp [sendCommand, lookupA_createCommand_self]⟩

/-- Witness for C7: a failed send for command c1 leaves no pending entry
and surfaces the error; a successful send returns the generated id and
keeps c1 pending. -/
theorem command_send_error_handling_witness :
    lookupA (sendCommand [] ("c1") ("CONFIRM_ENTRY") 0 (Except.error ("timeout"))).1
      ("c1") = none ∧
    (sendCommand [] ("c1") ("CONFIRM_ENTRY") 0 (Except.error ("timeout"))).2.1 =
      Except.error ("timeout") ∧
    (sendCommand [] ("c1") ("CONFIRM_ENTRY") 0
        (Except.ok { accepted := true, command_id := ("server-id") })).2.1 =
      Except.ok { accepted := true, command_id := ("c1") } ∧
    lookupA (sendCommand [] ("c1") ("CONFIRM_ENTRY") 0
        (Except.ok { accepted := true, command_id := ("server-id") })).1 ("c1") =
      some ⟨("CONFIRM_ENTRY"), 0⟩ := by
  have h1 := (command_send_error_handling [] ("c1") ("CONFIRM_ENTRY") 0
    (Except.error ("timeout"))).2.1 ("timeout") rfl
  have h2 := (command_send_error_handling [] ("c1") ("CONFIRM_ENTRY") 0
    (Except.ok { accepted := true, command_id := ("server-id") })).2.2
    { accepted := true, command_id := ("server-id") } rfl
  exact ⟨h1.2, h1.1, h2.1, h2.2⟩

/-! ## Claim C4: execution idempotence and dedup -/

/-- C4: processing the same fill-class event twice yields the same state
as processing it once (the second application is a no-op), and one
application preserves distinctness of the exec_ids in the executions
list. -/
theorem processExecutionEvent_of_any (s : AppState) (ev : MorpheusEvent)
    (hany : s.executions.any (fun e => e.exec_id == execIdOf ev) = true) :
    processExecutionEvent s ev = s := by
  by_cases ht : ev.event_type = ("ORDER_FILL_RECEIVED")
  · simp [processExecutionEvent, ht, hany]
  · simp [processExecutionEvent, ht]

theorem execution_dedup (s : AppState) (ev : MorpheusEvent) :
    processExecutionEvent (processExecutionEvent s ev) ev = processExecutionEvent s ev ∧
    ((s.executions.map Execution.exec_id).Nodup →
      (((processExecutionEvent s ev).executions.map Execution.exec_id)).Nodup) := by
  by_cases ht : ev.event_type = ("ORDER_FILL_RECEIVED")
  · by_cases hany : s.executions.any (fun e => e.exec_id == execIdOf ev) = true
    · have h0 : processExecutionEvent s ev = s := by
        simp [processExecutionEvent, ht, hany]
      rw [h0]
      exact ⟨h0, id⟩
    · have h1 : processExecutionEvent s ev =
          { s with executions := (executionOf ev :: s.executions).take 1000 } := by
        simp [processExecutionEvent, ht, hany]
      have hnot : ∀ e ∈ s.executions, e.exec_id ≠ execIdOf ev := by
        intro e he heq
        exact hany (List.any_eq_true.mpr ⟨e, he, by simp [heq]⟩)
      constructor
      · rw [h1]
        have hmem : (((executionOf ev :: s.executions).take 1000).any
            (fun e => e.exec_id == execIdOf ev)) = true := by
          rw [List.take_succ_cons]
          simp [executionOf]
        exact processExecutionEvent_of_any _ _ hmem
      · intro hnd
        rw [h1]
        simp only [List.take_succ_cons, List.map_cons]
        refine List.nodup_cons.mpr ⟨?_, ?_⟩
        · intro hmem
          obtain ⟨e, he, heq⟩ := List.mem_map.mp hmem
          have he' : e ∈ s.executions := List.take_subset _ _ he
          exact hnot e he' (by simpa [executionOf] using heq)
        · rw [List.map_take]
          exact hnd.sublist (List.take_sublist _ _)
  · have h0 : processExecutionEvent s ev = s := by
      simp [processExecutionEvent, ht]
    rw [h0]
    exact ⟨h0, id⟩

/-- A concrete fill event for the C4 witness. -/
def ev4w : MorpheusEvent :=
  { event_id := ("e9"), event_type := ("ORDER_FILL_RECEIVED"), timestamp := ("t9"),
    payload := { client_order_id := some ("abc"), exec_id := some ("x1"),
                 filled_quantity := some 60, fill_price := some 101 } }

/-- Witness for C4: replaying the same fill event on the empty store is a
no-op the second time, and the resulting exec_id list is duplicate-free. -/
theorem execution_dedup_witness :
    processExecutionEvent (processExecutionEvent {} ev4w) ev4w =
      processExecutionEvent {} ev4w ∧
    (((processExecutionEvent {} ev4w).executions.map Execution.exec_id)).Nodup :=
  ⟨(execution_dedup {} ev4w).1, (execution_dedup {} ev4w).2 (by decide)⟩

/-! ## Claim C1: confirmation gate reasons list -/

/-- The fixed evaluation order of the gate's block reasons (spec §4.5). -/
def ALL_BLOCK_REASONS : List BlockReason :=
  [⟨("NO_SYMBOL"), ("No symbol")⟩,
   ⟨("NO_SIGNAL"), ("No signal")⟩,
   ⟨("SIGNAL_STALE"), ("Expired")⟩,
   ⟨("GATE_REJECTED"), ("Gate rejected")⟩,
   ⟨("RISK_VETOED"), ("Risk vetoed")⟩,
   ⟨("GUARD_BLOCKED"), ("Guard blocked")⟩,
   ⟨("NOT_ARMED"), ("Not armed")⟩,
   ⟨("KILL_SWITCH"), ("Kill switch")⟩]

/-- Modelled from the spec: whether a given block reason applies to the
gate's inputs (spec §4.5, conditions 1-8). -/
def specGateApplicable (activeSymbol : String) (dc : Option DecisionChain)
    (signalStatus : String) (trading : TradingState) (r : BlockReason) : Bool :=
  if r.code = ("NO_SYMBOL") then decide (activeSymbol = (""))
  else if r.code = ("NO_SIGNAL") then (dc.bind DecisionChain.signal).isNone
  else if r.code = ("SIGNAL_STALE") then decide (signalStatus = ("STALE"))
  else if r.code = ("GATE_REJECTED") then
    decide (((dc.bind DecisionChain.gate).map GateStage.decision) = some ("rejected"))
  else if r.code = ("RISK_VETOED") then
    decide (((dc.bind DecisionChain.risk).map RiskStage.decision) = some ("vetoed"))
  else if r.code = ("GUARD_BLOCKED") then
    decide (((dc.bind DecisionChain.guard).map GuardStage.decision) = some ("block"))
  else if r.code = ("NOT_ARMED") then
    decide (trading.mode = ("LIVE") ∧ trading.liveArmed = false)
  else if r.code = ("KILL_SWITCH") then trading.killSwitchActive
  else false

/-- Modelled from the spec: the block reasons list is the fixed ordered
list filtered down to the applicable reasons (all of them, in evaluation
order, with no short-circuiting). -/
def specApplicableReasons (activeSymbol : String) (dc : Option DecisionChain)
    (signalStatus : String) (trading : TradingState) : List BlockReason :=
  ALL_BLOCK_REASONS.filter (specGateApplicable activeSymbol dc signalStatus trading)

theorem filter_cons_split {α : Type} (p : α → Bool) (a : α) (l : List α) :
    List.filter p (a :: l) = (if p a = true then [a] else []) ++ List.filter p l := by
  by_cases h : p a = true <;> simp [h]

theorem getExecutionState_fst (sym : String) (dc : Option DecisionChain)
    (st : String) (tr : TradingState) :
    (getExecutionState sym dc st tr).1 =
      (if (getExecutionState sym dc st tr).2 = [] then ("READY") else ("BLOCKED")) := rfl

theorem ready_iff_empty (r : List BlockReason) :
    ((if r = [] then ("READY") else ("BLOCKED")) = ("READY")) ↔ r = [] := by
  by_cases h : r = [] <;> simp [h]

/-- C1: the gate's reasons list is exactly the applicable reasons in the
fixed evaluation order (none short-circuited away); the verdict is READY
iff that list is empty; an active kill switch forces BLOCKED with
KILL_SWITCH present regardless of the other inputs; and NO_SIGNAL is
present whenever the chain's signal stage is absent. -/
theorem confirmation_gate_reasons (sym : String) (dc : Option DecisionChain)
    (st : String) (tr : TradingState) :
    (getExecutionState sym dc st tr).2 = specApplicableReasons sym dc st tr ∧
    ((getExecutionState sym dc st tr).1 = ("READY") ↔
      (getExecutionState sym dc st tr).2 = []) ∧
    (tr.killSwitchActive = true →
      (getExecutionState sym dc st tr).1 = ("BLOCKED") ∧
      (⟨("KILL_SWITCH"), ("Kill switch")⟩ : BlockReason) ∈
        (getExecutionState sym dc st tr).2) ∧
    (dc.bind DecisionChain.signal = none →
      (⟨("NO_SIGNAL"), ("No signal")⟩ : BlockReason) ∈
        (getExecutionState sym dc st tr).2) := by
  refine ⟨?_, ?_, ?_, ?_⟩
  · simp only [getExecutionState, specApplicableReasons, ALL_BLOCK_REASONS,
      filter_cons_split, List.filter_nil, specGateApplicable, List.append_nil,
      decide_eq_true_eq]
    simp
  · rw [getExecutionState_fst]
    exact ready_iff_empty _
  · intro h
    have hmem : (⟨("KILL_SWITCH"), ("Kill switch")⟩ : BlockReason) ∈
        (getExecutionState sym dc st tr).2 := by
      simp [getExecutionState, h]
    refine ⟨?_, hmem⟩
    rw [getExecutionState_fst]
    simp [List.ne_nil_of_mem hmem]
  · intro h
    simp [getExecutionState, h]

/-- Concrete decision chain for the C1 witness: fresh signal, gate and
risk approved, guard clear. -/
def dc1w : DecisionChain :=
  { symbol := ("AAPL"),
    signal := some sig8w,
    gate := some { decision := ("approved"), timestamp := ("t1") },
    risk := some { decision := ("approved"), timestamp := ("t1") },
    guard := some { decision := ("execute"), timestamp := ("t1") } }

/-- Witness for C1: with every stage approved but the kill switch active,
the verdict is BLOCKED and KILL_SWITCH is among the reasons. -/
theorem confirmation_gate_reasons_witness :
    (getExecutionState ("AAPL") (some dc1w) ("ARMED")
        { mode := ("PAPER"), liveArmed := false, killSwitchActive := true }).1 =
      ("BLOCKED") ∧
    (⟨("KILL_SWITCH"), ("Kill switch")⟩ : BlockReason) ∈
      (getExecutionState ("AAPL") (some dc1w) ("ARMED")
        { mode := ("PAPER"), liveArmed := false, killSwitchActive := true }).2 :=
  (confirmation_gate_reasons ("AAPL") (some dc1w) ("ARMED")
    { mode := ("PAPER"), liveArmed := false, killSwitchActive := true }).2.2.1 rfl

/-! ## Claim C6: rejection events synthesize missing orders -/

/-- The order synthesized by the ORDER_REJECTED branch when no order
exists yet for the event's client_order_id. -/
def rejectedOrderOf (ev : MorpheusEvent) (cid : String) : Order :=
  { client_order_id := some cid,
    symbol := some ((jsOrStr ev.symbol none).getD ("")),
    side := jsOrStr none ev.payload.side,
    quantity := jsOr none ev.payload.quantity,
    filled_quantity := some 0,
    order_type := jsOrStr (jsOrStr none ev.payload.order_type) (some ("market")),
    limit_price := none,
    stop_price := none,
    status := some ("rejected"),
    timestamp := some ev.timestamp,
    command_id := ev.payload.command_id }

/-- The pending-command map after an order event resolves a correlated
pending command (the tail of every successful processOrderEvent branch). -/
def pendingAfter (s : AppState) (ev : MorpheusEvent) : List (String × PendingCommand) :=
  match ev.payload.command_id with
  | some c =>
    if c ≠ ("") ∧ (lookupA s.pendingCommands c).isSome then
      eraseA s.pendingCommands c
    else s.pendingCommands
  | none => s.pendingCommands

/-- C6: an ORDER_REJECTED event whose client_order_id is unknown to the
orders map creates a new Order under that id with status rejected, taking
side and quantity from the event payload, symbol from the event, and
order type from the payload with default market. -/
theorem rejection_synthesizes_order (s : AppState) (ev : MorpheusEvent) (cid : String)
    (ht : ev.event_type = ("ORDER_REJECTED"))
    (hcid : ev.payload.client_order_id = some cid) (hne : cid ≠ (""))
    (hmiss : lookupA s.orders cid = none) :
    ∃ o, lookupA (processOrderEvent s ev).orders cid = some o ∧
      o.status = some ("rejected") ∧
      o.client_order_id = some cid ∧
      o.side = ev.payload.side ∧
      o.quantity = ev.payload.quantity ∧
      o.filled_quantity = some 0 ∧
      (∀ sym, ev.symbol = some sym → sym ≠ ("") → o.symbol = some sym) ∧
      (ev.payload.order_type = none → o.order_type = some ("market")) ∧
      (∀ ty, ev.payload.order_type = some ty → ty ≠ ("") →
        o.order_type = some ty) := by
  have h1 : processOrderEvent s ev =
      { s with orders := insertA s.orders cid (rejectedOrderOf ev cid),
               pendingCommands := pendingAfter s ev } := by
    simp [processOrderEvent, ht, hcid, hne, hmiss, rejectedOrderOf, pendingAfter]
  rw [h1]
  refine ⟨rejectedOrderOf ev cid, lookupA_insertA_self _ _ _, rfl, rfl, ?_, ?_, rfl,
    ?_, ?_, ?_⟩
  · simp [rejectedOrderOf, jsOrStr]
  · simp [rejectedOrderOf, jsOr]
  · intro sym hsym hsne
    simp [rejectedOrderOf, jsOrStr, hsym, hsne]
  · intro h
    simp [rejectedOrderOf, jsOrStr, h]
  · intro ty hty htne
    simp [rejectedOrderOf, jsOrStr, hty, htne]

/-- A concrete rejection event for an unknown order, for the C6 witness. -/
def ev6w : MorpheusEvent :=
  { event_id := ("e6"), event_type := ("ORDER_REJECTED"), timestamp := ("t6"),
    payload := { client_order_id := some ("xyz"), side := some ("buy"),
                 quantity := some 50 },
    symbol := some ("XYZ") }

/-- Witness for C6: a rejection for unknown id xyz on the empty store
creates a rejected order populated from the event, with order type
defaulting to market. -/
theorem rejection_synthesizes_order_witness :
    ∃ o, lookupA (processOrderEvent {} ev6w).orders ("xyz") = some o ∧
      o.status = some ("rejected") ∧
      o.client_order_id = some ("xyz") ∧
      o.side = some ("buy") ∧
      o.quantity = some 50 ∧
      o.filled_quantity = some 0 ∧
      o.symbol = some ("XYZ") ∧
      o.order_type = some ("market") := by
  obtain ⟨o, h1, h2, h3, h4, h5, h6, h7, h8, _⟩ :=
    rejection_synthesizes_order {} ev6w ("xyz") rfl rfl (by decide) rfl
  exact ⟨o, h1, h2, h3, h4, h5, h6, h7 ("XYZ") rfl (by decide), h8 rfl⟩

/-! ## Claim C3: terminal statuses are not sticky -/

/-- A store holding a fully filled order abc, for the C3 counterexample. -/
def s3c : AppState :=
  { orders := [(("abc"),
      { client_order_id := some ("abc"), symbol := some ("AAPL"),
        side := some ("buy"), quantity := some 100, filled_quantity := some 100,
        order_type := some ("market"), status := some ("filled"),
        timestamp := some ("t1") })] }

/-- A cancellation event for order abc, for the C3 counterexample. -/
def ev3c : MorpheusEvent :=
  { event_id := ("e3"), event_type := ("ORDER_CANCELLED"), timestamp := ("t3"),
    payload := { client_order_id := some ("abc") } }

/-- Counterexample to C3: an order in the terminal status filled is moved
to cancelled by a subsequent ORDER_CANCELLED event. -/
theorem terminal_status_counterexample :
    (lookupA s3c.orders ("abc")).map Order.status = some (some ("filled")) ∧
    (lookupA (processOrderEvent s3c ev3c).orders ("abc")).map Order.status =
      some (some ("cancelled")) := by
  constructor
  · decide
  · decide

/-- C3 (amended): processOrderEvent applies recognized lifecycle events
unconditionally — a confirmation event always sets status confirmed, a
cancellation always sets cancelled, a rejection always sets rejected —
regardless of the order's current (even terminal) status; only
unrecognized event types leave the store unchanged. -/
theorem lifecycle_overwrites_status (s : AppState) (ev : MorpheusEvent) (cid : String)
    (hcid : ev.payload.client_order_id = some cid) (hne : cid ≠ ("")) :
    (ev.event_type = ("ORDER_CONFIRMED") →
      (lookupA (processOrderEvent s ev).orders cid).map Order.status =
        some (some ("confirmed"))) ∧
    (ev.event_type = ("ORDER_CANCELLED") →
      (lookupA (processOrderEvent s ev).orders cid).map Order.status =
        some (some ("cancelled"))) ∧
    (ev.event_type = ("ORDER_REJECTED") →
      (lookupA (processOrderEvent s ev).orders cid).map Order.status =
        some (some ("rejected"))) ∧
    (ev.event_type ∉ [("ORDER_SUBMITTED"), ("ORDER_CONFIRMED"), ("ORDER_FILL_RECEIVED"),
        ("ORDER_CANCELLED"), ("ORDER_REJECTED")] →
      processOrderEvent s ev = s) := by
  refine ⟨?_, ?_, ?_, ?_⟩
  · intro ht
    simp [processOrderEvent, hcid, hne, ht]
  · intro ht
    simp [processOrderEvent, hcid, hne, ht]
  · intro ht
    simp [processOrderEvent, hcid, hne, ht]
  · intro ht
    simp only [List.mem_cons, List.mem_singleton, not_or] at ht
    obtain ⟨h1, h2, h3, h4, h5⟩ := ht
    simp [processOrderEvent, hcid, hne, h1, h2, h3, h4, h5]

/-- Witness for C3's amended theorem: the cancellation event for the
filled order abc yields status cancelled, applied at the concrete
counterexample store. -/
theorem lifecycle_overwrites_status_witness :
    (lookupA (processOrderEvent s3c ev3c).orders ("abc")).map Order.status =
      some (some ("cancelled")) :=
  (lifecycle_overwrites_status s3c ev3c ("abc") rfl (by decide)).2.1 rfl

/-! ## Claim C2: fill accumulation -/

/-- A store holding order abc with quantity 100 already 60 filled, for the
C2 counterexample. -/
def s2c : AppState :=
  { orders := [(("abc"),
      { client_order_id := some ("abc"), symbol := some ("AAPL"),
        side := some ("buy"), quantity := some 100, filled_quantity := some 60,
        order_type := some ("limit"), status := some ("partial"),
        timestamp := some ("t0") })] }

/-- A second 60-share fill for order abc, for the C2 counterexample. -/
def ev2c : MorpheusEvent :=
  { event_id := ("e2"), event_type := ("ORDER_FILL_RECEIVED"), timestamp := ("t2"),
    payload := { client_order_id := some ("abc"), filled_quantity := some 60 } }

/-- The order produced by the C2 counterexample fill. -/
def o2c : Order :=
  { client_order_id := some ("abc"), symbol := some ("AAPL"), side := some ("buy"),
    quantity := some 100, filled_quantity := some 120, order_type := some ("limit"),
    status := some ("filled"), timestamp := some ("t2") }

/-- Counterexample to C2: the store does not clamp fills — a 60-share fill
on a 100-share order already 60 filled yields filled_quantity 120, which
exceeds quantity, with status filled although filled_quantity is not equal
to quantity. -/
theorem fill_overflow_counterexample :
    ∃ o, lookupA (processOrderEvent s2c ev2c).orders ("abc") = some o ∧
      o.quantity = some 100 ∧ o.filled_quantity = some 120 ∧
      o.status = some ("filled") ∧ o.filled_quantity ≠ o.quantity := by
  refine ⟨o2c, ?_, rfl, rfl, rfl, by decide⟩
  decide

@[simp]
theorem jsOr_some_zero (x : Int) : jsOr (some x) (some 0) = some x := by
  by_cases h : x = 0 <;> simp [jsOr, h]

/-- A fill-class event for order `cid` carrying the incremental fill
amount `f` in its payload. -/
def mkFillEvent (cid : String) (f : Int) : MorpheusEvent :=
  { event_id := ("evt-fill"), event_type := ("ORDER_FILL_RECEIVED"), timestamp := ("tf"),
    payload := { client_order_id := some cid, filled_quantity := some f } }

/-- The order record after the fill branch accumulates to `total` against
order quantity `q`. -/
def fillUpdatedOrder (o : Order) (total q : Int) : Order :=
  { o with filled_quantity := some total,
           status := some (if q ≤ total then ("filled") else ("partial")),
           timestamp := some ("tf") }

theorem jsOr_some_of_ne (x : Int) (b : JSNum) (h : x ≠ 0) : jsOr (some x) b = some x := by
  simp [jsOr, h]

theorem processOrderEvent_mkFill (s : AppState) (cid : String) (f q x : Int) (o : Order)
    (hne : cid ≠ ("")) (ho : lookupA s.orders cid = some o) (hq : o.quantity = some q)
    (hqz : q ≠ 0) (hx : o.filled_quantity = some x) (hf : f ≠ 0) :
    processOrderEvent s (mkFillEvent cid f) =
      { s with orders := insertA s.orders cid (fillUpdatedOrder o (x + f) q) } := by
  simp [processOrderEvent, mkFillEvent, hne, ho, hq, hx, fillUpdatedOrder,
    jsOr_some_of_ne f none hf, jsOr_some_of_ne q none hqz,
    jsAdd, jsGe, decide_eq_true_eq]

theorem applyFills_mkFill (cid : String) (hne : cid ≠ ("")) (q : Int) (hqz : q ≠ 0)
    (fills : List Int) :
    ∀ (s : AppState) (o : Order) (x : Int),
      lookupA s.orders cid = some o → o.quantity = some q →
      o.filled_quantity = some x → (∀ f ∈ fills, f ≠ 0) →
      ∃ o', lookupA (applyFills s (fills.map (mkFillEvent cid))).orders cid = some o' ∧
        o'.quantity = some q ∧
        o'.filled_quantity = some (x + fills.sum) ∧
        (fills = [] → o' = o) ∧
        (fills ≠ [] →
          o'.status = some (if q ≤ x + fills.sum then ("filled") else ("partial"))) := by
  induction fills with
  | nil =>
    intro s o x ho hq hx _
    exact ⟨o, by simpa [applyFills] using ho, hq, by simpa using hx,
      fun _ => rfl, fun h => absurd rfl h⟩
  | cons f rest ih =>
    intro s o x ho hq hx hall
    have hf : f ≠ 0 := hall f (List.mem_cons_self f rest)
    have hstep := processOrderEvent_mkFill s cid f q x o hne ho hq hqz hx hf
    have happ : applyFills s ((f :: rest).map (mkFillEvent cid)) =
        applyFills (processOrderEvent s (mkFillEvent cid f)) (rest.map (mkFillEvent cid)) :=
      rfl
    rw [happ, hstep]
    have ho' : lookupA ({ s with
        orders := insertA s.orders cid (fillUpdatedOrder o (x + f) q) }).orders cid =
        some (fillUpdatedOrder o (x + f) q) := lookupA_insertA_self _ _ _
    have hq' : (fillUpdatedOrder o (x + f) q).quantity = some q := by
      simpa [fillUpdatedOrder] using hq
    have hx' : (fillUpdatedOrder o (x + f) q).filled_quantity = some (x + f) := rfl
    have hall' : ∀ g ∈ rest, g ≠ 0 := fun g hg => hall g (List.mem_cons_of_mem _ hg)
    obtain ⟨o', h1, h2, h3, h4, h5⟩ := ih _ _ _ ho' hq' hx' hall'
    refine ⟨o', h1, h2, ?_, ?_, ?_⟩
    · rw [List.sum_cons, ← add_assoc]
      exact h3
    · intro hcontra
      exact absurd hcontra (List.cons_ne_nil f rest)
    · intro _
      rcases eq_or_ne rest [] with hrest | hrest
      · subst hrest
        rw [h4 rfl]
        simp [fillUpdatedOrder]
      · simpa [List.sum_cons, add_assoc] using h5 hrest

theorem sum_take_le_succ (l : List Int) (hpos : ∀ f ∈ l, 0 < f) (n : Nat) :
    (l.take n).sum ≤ (l.take (n + 1)).sum := by
  induction l generalizing n with
  | nil => simp
  | cons a t ih =>
    cases n with
    | zero =>
      have := hpos a (List.mem_cons_self a t)
      simp
      omega
    | succ m =>
      simp only [List.take_succ_cons, List.sum_cons]
      have := ih (fun f hf => hpos f (List.mem_cons_of_mem _ hf)) m
      omega

/-- C2 (amended): for an order with known positive quantity q and a
sequence of positive incremental fills whose total does not exceed q
(a well-behaved engine), filled_quantity accumulates to the sum of the
fills, never exceeding q, monotonically non-decreasing along the
sequence, and the final status is filled iff filled_quantity = q and
partial iff 0 < filled_quantity < q.  (Without the no-overfill
assumption the store sets status filled whenever the accumulated total
reaches or exceeds q, and filled_quantity can exceed quantity.) -/
theorem fill_accumulation (s : AppState) (cid : String) (o : Order) (q : Int)
    (fills : List Int) (hne : cid ≠ ("")) (ho : lookupA s.orders cid = some o)
    (hq : o.quantity = some q) (hq0 : 0 < q) (h0 : o.filled_quantity = some 0)
    (hpos : ∀ f ∈ fills, 0 < f) (hsum : fills.sum ≤ q) (hnil : fills ≠ []) :
    ∃ o', lookupA (applyFills s (fills.map (mkFillEvent cid))).orders cid = some o' ∧
      o'.quantity = some q ∧
      o'.filled_quantity = some fills.sum ∧
      fills.sum ≤ q ∧
      (o'.status = some ("filled") ↔ fills.sum = q) ∧
      (o'.status = some ("partial") ↔ 0 < fills.sum ∧ fills.sum < q) ∧
      (∀ n : Nat,
        (((lookupA (applyFills s ((fills.take n).map (mkFillEvent cid))).orders cid).bind
            Order.filled_quantity).getD 0) ≤
        (((lookupA (applyFills s ((fills.take (n + 1)).map (mkFillEvent cid))).orders
            cid).bind Order.filled_quantity).getD 0)) := by
  have hqz : q ≠ 0 := by omega
  have hall : ∀ f ∈ fills, f ≠ 0 := fun f hf => by have := hpos f hf; omega
  obtain ⟨o', h1, h2, h3, _, h5⟩ := applyFills_mkFill cid hne q hqz fills s o 0 ho hq h0 hall
  rw [zero_add] at h3
  have hst := h5 hnil
  rw [zero_add] at hst
  have hpos_sum : 0 < fills.sum := List.sum_pos fills hpos hnil
  refine ⟨o', h1, h2, h3, hsum, ?_, ?_, ?_⟩
  · rw [hst]
    by_cases hc : q ≤ fills.sum
    · simp [hc]
      omega
    · simp [hc]
      omega
  · rw [hst]
    by_cases hc : q ≤ fills.sum
    · simp [hc]
    · simp [hc]
      omega
  · intro n
    have htake : ∀ m : Nat,
        ∃ om, lookupA (applyFills s ((fills.take m).map (mkFillEvent cid))).orders cid =
          some om ∧ om.filled_quantity = some ((fills.take m).sum) := by
      intro m
      have hallm : ∀ f ∈ fills.take m, f ≠ 0 := fun f hf =>
        hall f (List.take_subset _ _ hf)
      obtain ⟨om, g1, g2, g3, g4, g5⟩ :=
        applyFills_mkFill cid hne q hqz (fills.take m) s o 0 ho hq h0 hallm
      exact ⟨om, g1, by rwa [zero_add] at g3⟩
    obtain ⟨a, ha1, ha2⟩ := htake n
    obtain ⟨b, hb1, hb2⟩ := htake (n + 1)
    rw [ha1, hb1]
    show (a.filled_quantity).getD 0 ≤ (b.filled_quantity).getD 0
    rw [ha2, hb2]
    simpa using sum_take_le_succ fills hpos n

/-- A fresh 100-share order abc for the C2 witness. -/
def o2w : Order :=
  { client_order_id := some ("abc"), symbol := some ("AAPL"), side := some ("buy"),
    quantity := some 100, filled_quantity := some 0, order_type := some ("market"),
    status := some ("submitted"), timestamp := some ("t0") }

/-- A store holding the fresh order abc, for the C2 witness. -/
def s2w : AppState := { orders := [(("abc"), o2w)] }

/-- Witness for C2's amended theorem: fills of 60 then 40 on a 100-share
order accumulate to 100 with final status filled. -/
theorem fill_accumulation_witness :
    ∃ o', lookupA (applyFills s2w (([60, 40] : List Int).map (mkFillEvent ("abc")))).orders
        ("abc") = some o' ∧
      o'.quantity = some 100 ∧
      o'.filled_quantity = some 100 ∧
      o'.status = some ("filled") := by
  obtain ⟨o', h1, h2, h3, _, h5, _, _⟩ :=
    fill_accumulation s2w ("abc") o2w 100 ([60, 40] : List Int) (by decide) rfl rfl
      (by decide) rfl (by decide) (by decide) (by decide)
  have hsum : (([60, 40] : List Int)).sum = 100 := by decide
  rw [hsum] at h3 h5
  exact ⟨o', h1, h2, h3, h5.mpr rfl⟩
